import Mathlib

/-!
Shallow embedding of `src/packages/better-auth/src/social-providers/wildapricot.ts`
(the Wild Apricot OAuth provider adapter) and proofs about it.

Modelling conventions:
* JavaScript objects whose key set is open (the normalized user, which may
  receive arbitrary extra keys from the configured mapping function) are
  modelled as association lists `List (String × JSValue)` in literal order;
  `objGet` returns the LAST binding of a key, which is exactly the semantics
  of object-literal spread (`{...a, ...b}`: keys of `b` win).
* `betterFetch` results are a record with `data` and `error` fields, both
  optional, mirroring the checks the source performs on them.
* Fields the TypeScript types declare as required but that the code guards
  against being absent at runtime (`profile.Status ?? "NoMembership"`,
  `response.data.scope?.split(" ")`, `expires_in ? _ : undefined`) are
  modelled as `Option`.
* Time is in milliseconds since the epoch (`Date.now()`), as an `Int`.
-/

/-- A JavaScript runtime value, as far as the adapter's user objects need. -/
inductive JSValue where
  | nullV : JSValue
  | str : String → JSValue
  | num : Int → JSValue
  | boolean : Bool → JSValue
deriving DecidableEq

/-- A JavaScript object with an open key set: bindings in literal order,
later bindings shadow earlier ones (object-spread semantics). -/
abbrev JSObject := List (String × JSValue)

/-- Property lookup on a `JSObject`: the LAST binding of the key wins,
matching `{...a, ...b}` where keys of `b` override keys of `a`. -/
def objGet : JSObject → String → Option JSValue
  | [], _ => none
  | (k, v) :: rest, key =>
    match objGet rest key with
    | some w => some w
    | none => if k = key then some v else none

/-- The `MembershipLevel` object nested in a Wild Apricot profile
(source lines 32-35). -/
structure MembershipLevel where
  Id : Int
  Name : String
deriving DecidableEq

/-- `WildApricotProfile` (source lines 26-38).  `Status` and
`MembershipLevel` are `Option` because the code guards against their
runtime absence (`?? "NoMembership"`, `?.Name`). -/
structure WildApricotProfile where
  Id : Int
  FirstName : String
  LastName : String
  Email : String
  Status : Option String
  MembershipLevel : Option MembershipLevel
  IsAccountAdministrator : Bool
  AdministrativeRoleTypes : List String
deriving DecidableEq

/-- The error half of a `betterFetch` result (opaque upstream detail). -/
structure FetchError where
  status : Nat
  message : String
deriving DecidableEq

/-- A `betterFetch` response: `data` and `error`, each possibly absent.
The source checks both (`userInfo.error || !userInfo.data`). -/
structure FetchResult (α : Type) where
  data : Option α
  error : Option FetchError

/-- `WildApricotOptions` (source lines 10-24).  `mapProfileToUser` returns
an open-keyed object, modelled as a `JSObject`. -/
structure WildApricotOptions where
  clientId : String
  clientSecret : String
  siteName : Option String
  accountId : String
  redirectURI : Option String
  scopes : Option (List String)
  mapProfileToUser : Option (WildApricotProfile → JSObject)

/-- `WA_SITE_URL` (source line 43): `siteName ? https://{siteName}.wildapricot.org
: https://www.wildapricot.org`.  JS string truthiness: the empty string is
falsy, so a supplied empty `siteName` also falls back to the public host. -/
def WA_SITE_URL : Option String → String
  | some s => if s = "" then "https://www.wildapricot.org"
              else "https://" ++ s ++ ".wildapricot.org"
  | none => "https://www.wildapricot.org"

/-- `WA_BASE_URL` (source line 44). -/
def WA_BASE_URL : String := "https://oauth.wildapricot.org"

/-- `WA_API_URL` (source line 45). -/
def WA_API_URL : String := "https://api.wildapricot.org"

/-- The input the framework passes to `createAuthorizationURL` (only
`state` and `redirectURI` are read by this adapter, source lines 60-62). -/
structure AuthorizationURLInput where
  state : String
  redirectURI : Option String
deriving DecidableEq

/-- The argument object the adapter hands to the shared OAuth2 helper
`createAuthorizationURL` (source lines 52-63); the helper itself is outside
this file, so the adapter's behaviour is exactly this record. -/
structure AuthorizationURLRequest where
  id : String
  clientId : String
  clientSecret : String
  optionsRedirectURI : Option String
  authorizationEndpoint : String
  state : String
  scopes : List String
  redirectURI : Option String
deriving DecidableEq

/-- `createAuthorizationURL` (source lines 51-64).  `scopes || ["contacts_me"]`
is a JS truthiness check; an array — even the empty array — is truthy, so
only an absent `scopes` option selects the default. -/
def createAuthorizationURL (opts : WildApricotOptions) (data : AuthorizationURLInput) :
    AuthorizationURLRequest :=
  ⟨"wildapricot",
   opts.clientId,
   opts.clientSecret,
   opts.redirectURI,
   WA_SITE_URL opts.siteName ++ "/sys/login/OAuthLogin",
   data.state,
   opts.scopes.getD ["contacts_me"],
   data.redirectURI⟩

/-- The body of a successful token-endpoint response (source lines 82-87).
`expires_in` and `scope` are `Option` because the success path guards them
(`expires_in ? _ : undefined`, `scope?.split`). -/
structure RefreshResponseBody where
  access_token : String
  refresh_token : String
  expires_in : Option Int
  scope : Option String
deriving DecidableEq

/-- `APIError(status, {message})` from `better-call` (source lines 100-102). -/
structure APIError where
  status : String
  message : String
deriving DecidableEq

/-- `OAuth2Tokens` as built by `refreshAccessToken` (source lines 105-112).
`accessTokenExpiresAt` is a millisecond timestamp. -/
structure OAuth2Tokens where
  accessToken : String
  refreshToken : String
  accessTokenExpiresAt : Option Int
  scopes : Option (List String)
deriving DecidableEq

/-- `refreshAccessToken` (source lines 81-113), as a function of the
current time `now` (ms) and the token-endpoint response.
`if (response.error) throw APIError("BAD_REQUEST", {message: ...})` becomes
`Except.error`; the success path maps the body fields.
`expires_in ? Date.now() + expires_in*1000 : undefined` is a JS number
truthiness check: absent or zero gives no expiry.
The outer `Option` is `none` only when the response has neither `error` nor
`data`, a state outside `betterFetch`'s contract where the source would
dereference null; it is unreachable for contract-conforming responses. -/
def refreshAccessToken (now : Int) (response : FetchResult RefreshResponseBody) :
    Option (Except APIError OAuth2Tokens) :=
  if response.error.isSome then
    some (Except.error ⟨"BAD_REQUEST", "Failed to refresh access token"⟩)
  else
    response.data.map fun d =>
      Except.ok
        ⟨d.access_token,
         d.refresh_token,
         (match d.expires_in with
          | some n => if n = 0 then none else some (now + n * 1000)
          | none => none),
         d.scope.map fun s => s.splitOn " "⟩

/-- The membership-status test local to `getUserInfo` (source lines 129-131):
`["Active","PendingRenewal","PendingLevelChange"].includes(status)`.
It is called on `profile.Status`; `includes` of an absent value is `false`. -/
def isActiveMember (status : Option String) : Bool :=
  match status with
  | some s => ["Active", "PendingRenewal", "PendingLevelChange"].contains s
  | none => false

/-- JS `String(n)` on an integral number: decimal representation. -/
def jsStringOfNumber (n : Int) : String := Int.repr n

/-- `baseUser` (source lines 133-139). -/
def baseUser (profile : WildApricotProfile) : JSObject :=
  [("id", JSValue.str (jsStringOfNumber profile.Id)),
   ("name", JSValue.str (profile.FirstName ++ " " ++ profile.LastName)),
   ("email", JSValue.str profile.Email),
   ("emailVerified", JSValue.boolean true),
   ("image", JSValue.nullV)]

/-- The default Wild Apricot fields of the normalized user (source lines
148-151).  `profile.Status ?? "NoMembership"` is nullish coalescing: only
an ABSENT status falls back (the empty string is kept as-is);
`profile.MembershipLevel?.Name ?? null` yields null when the level object
is absent. -/
def defaultWildApricotFields (profile : WildApricotProfile) : JSObject :=
  [("membershipStatus", JSValue.str (profile.Status.getD "NoMembership")),
   ("membershipLevel",
     match profile.MembershipLevel with
     | some lvl => JSValue.str lvl.Name
     | none => JSValue.nullV),
   ("isActiveMember", JSValue.boolean (isActiveMember profile.Status)),
   ("isAdmin", JSValue.boolean profile.IsAccountAdministrator)]

/-- `options.mapProfileToUser?.(profile) || {}` (source line 142):
the configured mapping function's result, or the empty object. -/
def additionalFields (opts : WildApricotOptions) (profile : WildApricotProfile) : JSObject :=
  match opts.mapProfileToUser with
  | some f => f profile
  | none => []

/-- The `{user, data}` pair a successful `getUserInfo` returns
(source lines 144-156). -/
structure UserInfoResult where
  user : JSObject
  data : WildApricotProfile

/-- `getUserInfo` (source lines 115-157) as a function of the profile-fetch
response.  `if (userInfo.error || !userInfo.data) return null` becomes the
guard; on success the user object is the spread
`{...baseUser, membershipStatus.., membershipLevel.., isActiveMember..,
isAdmin.., ...additionalFields}`, i.e. the three lists appended in order
(later bindings win under `objGet`). -/
def getUserInfo (opts : WildApricotOptions) (userInfo : FetchResult WildApricotProfile) :
    Option UserInfoResult :=
  if userInfo.error.isSome || userInfo.data.isNone then none
  else
    match userInfo.data with
    | none => none
    | some profile =>
        some ⟨baseUser profile ++ defaultWildApricotFields profile ++
                additionalFields opts profile,
              profile⟩

/-! Concrete sample inputs, used to instantiate the theorems below. -/

/-- A sample active, administrator profile. -/
def sampleProfile : WildApricotProfile :=
  ⟨12345, "Ada", "Lovelace", "ada@example.org", some "Active",
   some ⟨2, "Gold"⟩, true, ["AccountAdministrator"]⟩

/-- A sample profile whose `Status` is present but the empty string. -/
def sampleProfileEmptyStatus : WildApricotProfile :=
  ⟨7, "Bo", "Po", "bo@example.org", some "", none, false, []⟩

/-- A sample profile with no `Status` and no `MembershipLevel`. -/
def sampleProfileNoStatus : WildApricotProfile :=
  ⟨7, "Bo", "Po", "bo@example.org", none, none, false, []⟩

/-- Options with no mapping function, a tenant site name, and an
explicitly empty scope list. -/
def optsNoMap : WildApricotOptions :=
  ⟨"cid", "csecret", some "club", "acct1", some "https://app.example/cb",
   some [], none⟩

/-- Options whose mapping function forces `isAdmin` to `false`. -/
def optsAdminOverride : WildApricotOptions :=
  ⟨"cid", "csecret", none, "acct1", none, none,
   some fun _ => [("isAdmin", JSValue.boolean false)]⟩

/-- Options whose mapping function overrides the base `id` field. -/
def optsIdOverride : WildApricotOptions :=
  ⟨"cid", "csecret", none, "acct1", none, none,
   some fun _ => [("id", JSValue.num 99)]⟩

/-- The result `getUserInfo optsNoMap` yields on `sampleProfile`. -/
def sampleResult : UserInfoResult :=
  ⟨baseUser sampleProfile ++ defaultWildApricotFields sampleProfile ++
     additionalFields optsNoMap sampleProfile, sampleProfile⟩

/-- The result `getUserInfo optsAdminOverride` yields on `sampleProfile`. -/
def sampleAdminResult : UserInfoResult :=
  ⟨baseUser sampleProfile ++ defaultWildApricotFields sampleProfile ++
     additionalFields optsAdminOverride sampleProfile, sampleProfile⟩

/-- The result `getUserInfo optsIdOverride` yields on `sampleProfile`. -/
def sampleIdOverrideResult : UserInfoResult :=
  ⟨baseUser sampleProfile ++ defaultWildApricotFields sampleProfile ++
     additionalFields optsIdOverride sampleProfile, sampleProfile⟩

/-- The result `getUserInfo optsNoMap` yields on `sampleProfileNoStatus`. -/
def sampleNoStatusResult : UserInfoResult :=
  ⟨baseUser sampleProfileNoStatus ++ defaultWildApricotFields sampleProfileNoStatus ++
     additionalFields optsNoMap sampleProfileNoStatus, sampleProfileNoStatus⟩

/-- A sample call input for `createAuthorizationURL`. -/
def sampleAuthInput : AuthorizationURLInput := ⟨"state123", none⟩

/-- A sample successful token-endpoint response body. -/
def sampleRefreshBody : RefreshResponseBody :=
  ⟨"atok", "rtok", some 3600, some "contacts_me read"⟩

/-! Helper lemmas. -/

/-- Lookup across an append: bindings of the right list win. -/
theorem objGet_append (a b : JSObject) (k : String) :
    objGet (a ++ b) k =
      match objGet b k with
      | some v => some v
      | none => objGet a k := by
  induction a with
  | nil =>
      cases h : objGet b k <;> simp [objGet, h]
  | cons p a ih =>
      obtain ⟨k', v⟩ := p
      have hc : objGet (((k', v) :: a) ++ b) k =
          match objGet (a ++ b) k with
          | some w => some w
          | none => if k' = k then some v else none := rfl
      rw [hc, ih]
      cases h : objGet b k
      · rfl
      · rfl

/-- A key that occurs in an object is found by `objGet`. -/
theorem objGet_isSome_of_mem_keys (o : JSObject) (k : String)
    (h : k ∈ o.map Prod.fst) : (objGet o k).isSome := by
  induction o with
  | nil => simp at h
  | cons p rest ih =>
      obtain ⟨k', v⟩ := p
      simp only [List.map_cons, List.mem_cons] at h
      simp only [objGet]
      cases hrest : objGet rest k with
      | some w => simp
      | none =>
          show (if k' = k then some v else none).isSome
          rcases h with h | h
          · rw [if_pos h.symm]
            rfl
          · have hsome := ih h
            rw [hrest] at hsome
            simp at hsome

/-- Inversion of a successful `getUserInfo`: the fetch had no error, its
data is the returned profile, and the user object is base fields, then
default Wild Apricot fields, then the mapping function's fields. -/
theorem getUserInfo_eq_some {opts : WildApricotOptions}
    {fr : FetchResult WildApricotProfile} {r : UserInfoResult}
    (h : getUserInfo opts fr = some r) :
    fr.error = none ∧ fr.data = some r.data ∧
    r.user = baseUser r.data ++ defaultWildApricotFields r.data ++
      additionalFields opts r.data := by
  unfold getUserInfo at h
  cases he : fr.error with
  | some e => simp [he] at h
  | none =>
      cases hd : fr.data with
      | none => simp [he, hd] at h
      | some p =>
          rw [he, hd] at h
          have h2 : some (⟨baseUser p ++ defaultWildApricotFields p ++
              additionalFields opts p, p⟩ : UserInfoResult) = some r := h
          injection h2 with h3
          subst h3
          exact ⟨rfl, rfl, rfl⟩

/-- With positive fuel, `Nat.toDigitsCore` always emits at least one digit. -/
theorem toDigitsCore_ne_nil (b : Nat) :
    ∀ (f n : Nat) (l : List Char), Nat.toDigitsCore b (f + 1) n l ≠ [] := by
  intro f
  induction f with
  | zero =>
      intro n l
      unfold Nat.toDigitsCore
      by_cases hq : n / b = 0
      · simp [hq]
      · simp only [hq, if_false]
        unfold Nat.toDigitsCore
        simp
  | succ f ih =>
      intro n l
      unfold Nat.toDigitsCore
      by_cases hq : n / b = 0
      · simp [hq]
      · simp only [hq, if_false]
        exact ih _ _

/-- The decimal representation of a natural number is never empty. -/
theorem natRepr_ne_empty (n : Nat) : Nat.repr n ≠ "" := by
  unfold Nat.repr Nat.toDigits
  intro h
  have hdata := congrArg String.data h
  exact toDigitsCore_ne_nil 10 n n [] hdata

/-- JS `String(n)` of an integral number is never the empty string. -/
theorem jsStringOfNumber_ne_empty (n : Int) : jsStringOfNumber n ≠ "" := by
  unfold jsStringOfNumber Int.repr
  cases n with
  | ofNat m => exact natRepr_ne_empty m
  | negSucc m =>
      intro h
      have hdata := congrArg String.data h
      simp [String.data_append] at hdata

/-! Claim theorems. -/

/-- C1: whenever the profile fetch returns an error or carries no data,
`getUserInfo` returns null (`none`), and conversely a non-null result is a
fully-populated user: all nine default fields are present (never a
partially-filled user).  The operation is a total function, so it throws
nothing. -/
theorem getUserInfo_none_iff_error_or_no_data
    (opts : WildApricotOptions) (fr : FetchResult WildApricotProfile) :
    (getUserInfo opts fr = none ↔ (fr.error.isSome ∨ fr.data = none)) ∧
    (∀ r, getUserInfo opts fr = some r →
      ∀ k, k ∈ ["id", "name", "email", "emailVerified", "image",
        "membershipStatus", "membershipLevel", "isActiveMember", "isAdmin"] →
        (objGet r.user k).isSome) := by
  obtain ⟨d, e⟩ := fr
  cases e with
  | some err =>
      refine ⟨⟨fun _ => Or.inl rfl, fun _ => rfl⟩, fun r hr _ _ => ?_⟩
      exact absurd hr (by simp [getUserInfo])
  | none =>
      cases d with
      | none =>
          refine ⟨⟨fun _ => Or.inr rfl, fun _ => rfl⟩, fun r hr _ _ => ?_⟩
          exact absurd hr (by simp [getUserInfo])
      | some p =>
          constructor
          · constructor
            · intro h
              exact absurd h (by simp [getUserInfo])
            · rintro (h | h) <;> simp at h
          · intro r hr k hk
            obtain ⟨-, -, hu⟩ := getUserInfo_eq_some hr
            rw [hu, objGet_append]
            cases ha : objGet (additionalFields opts r.data) k
            · show (objGet (baseUser r.data ++ defaultWildApricotFields r.data) k).isSome
              apply objGet_isSome_of_mem_keys
              simpa [baseUser, defaultWildApricotFields] using hk
            · simp

/-- Witness for C1: a concrete errored fetch yields null. -/
theorem getUserInfo_none_iff_error_or_no_data_witness :
    getUserInfo optsNoMap ⟨none, some ⟨500, "boom"⟩⟩ = none :=
  (getUserInfo_none_iff_error_or_no_data optsNoMap ⟨none, some ⟨500, "boom"⟩⟩).1.mpr
    (Or.inr rfl)

/-- C2: whenever the token-endpoint response carries an error field,
`refreshAccessToken` fails with a BAD_REQUEST `APIError` whose message is
exactly "Failed to refresh access token", independent of the upstream
error's content, and returns no token set. -/
theorem refreshAccessToken_error_fixed_message
    (now : Int) (response : FetchResult RefreshResponseBody) (e : FetchError)
    (h : response.error = some e) :
    refreshAccessToken now response =
      some (Except.error ⟨"BAD_REQUEST", "Failed to refresh access token"⟩) := by
  unfold refreshAccessToken
  rw [h]
  rfl

/-- Witness for C2 at a concrete upstream error. -/
theorem refreshAccessToken_error_fixed_message_witness :
    (⟨none, some ⟨400, "upstream detail"⟩⟩ : FetchResult RefreshResponseBody).error =
        some ⟨400, "upstream detail"⟩ ∧
    refreshAccessToken 0 ⟨none, some ⟨400, "upstream detail"⟩⟩ =
      some (Except.error ⟨"BAD_REQUEST", "Failed to refresh access token"⟩) :=
  ⟨rfl, refreshAccessToken_error_fixed_message 0 _ ⟨400, "upstream detail"⟩ rfl⟩

/-- C3: a successful refresh returns `accessToken = access_token`,
`refreshToken = refresh_token`, `accessTokenExpiresAt = now + expires_in`
seconds (in ms) when `expires_in` is a nonzero number and nothing when it
is zero or absent, and `scopes` is the `scope` string split on single
spaces, absent when `scope` is absent. -/
theorem refreshAccessToken_success_mapping
    (now : Int) (response : FetchResult RefreshResponseBody)
    (d : RefreshResponseBody)
    (he : response.error = none) (hd : response.data = some d) :
    ∃ t, refreshAccessToken now response = some (Except.ok t) ∧
      t.accessToken = d.access_token ∧
      t.refreshToken = d.refresh_token ∧
      (∀ n, d.expires_in = some n → n ≠ 0 →
        t.accessTokenExpiresAt = some (now + n * 1000)) ∧
      ((d.expires_in = some 0 ∨ d.expires_in = none) →
        t.accessTokenExpiresAt = none) ∧
      (∀ s, d.scope = some s → t.scopes = some (s.splitOn " ")) ∧
      (d.scope = none → t.scopes = none) := by
  refine ⟨⟨d.access_token, d.refresh_token,
      (match d.expires_in with
       | some n => if n = 0 then none else some (now + n * 1000)
       | none => none),
      d.scope.map fun s => s.splitOn " "⟩, ?_, rfl, rfl, ?_, ?_, ?_, ?_⟩
  · unfold refreshAccessToken
    rw [he, hd]
    rfl
  · intro n hn hnz
    show (match d.expires_in with
          | some n => if n = 0 then none else some (now + n * 1000)
          | none => none) = some (now + n * 1000)
    rw [hn]
    simp [hnz]
  · rintro (h0 | h0)
    · show (match d.expires_in with
            | some n => if n = 0 then none else some (now + n * 1000)
            | none => none) = none
      rw [h0]
      rfl
    · show (match d.expires_in with
            | some n => if n = 0 then none else some (now + n * 1000)
            | none => none) = none
      rw [h0]
  · intro s hs
    show d.scope.map (fun s => s.splitOn " ") = some (s.splitOn " ")
    rw [hs]
    rfl
  · intro hs
    show d.scope.map (fun s => s.splitOn " ") = none
    rw [hs]
    rfl

/-- Witness for C3 at a concrete successful response
(`expires_in = 3600`, `scope = "contacts_me read"`). -/
theorem refreshAccessToken_success_mapping_witness :
    (⟨some sampleRefreshBody, none⟩ : FetchResult RefreshResponseBody).error = none ∧
    (∃ t, refreshAccessToken 1000 ⟨some sampleRefreshBody, none⟩ = some (Except.ok t) ∧
      t.accessToken = sampleRefreshBody.access_token ∧
      t.refreshToken = sampleRefreshBody.refresh_token ∧
      (∀ n, sampleRefreshBody.expires_in = some n → n ≠ 0 →
        t.accessTokenExpiresAt = some (1000 + n * 1000)) ∧
      ((sampleRefreshBody.expires_in = some 0 ∨ sampleRefreshBody.expires_in = none) →
        t.accessTokenExpiresAt = none) ∧
      (∀ s, sampleRefreshBody.scope = some s → t.scopes = some (s.splitOn " ")) ∧
      (sampleRefreshBody.scope = none → t.scopes = none)) :=
  ⟨rfl, refreshAccessToken_success_mapping 1000 ⟨some sampleRefreshBody, none⟩
    sampleRefreshBody rfl rfl⟩

/-- C4: when the mapping function does not override the key (the spec's
own scoping for the default derived fields), the normalized user's
`isActiveMember` is a boolean that is true exactly when the profile's
`Status` is "Active", "PendingRenewal" or "PendingLevelChange"; any other
status — an absent one included — gives false. -/
theorem getUserInfo_isActiveMember_iff
    (opts : WildApricotOptions) (fr : FetchResult WildApricotProfile)
    (r : UserInfoResult)
    (hov : objGet (additionalFields opts r.data) "isActiveMember" = none)
    (h : getUserInfo opts fr = some r) :
    ∃ b, objGet r.user "isActiveMember" = some (JSValue.boolean b) ∧
      (b = true ↔ (r.data.Status = some "Active" ∨
        r.data.Status = some "PendingRenewal" ∨
        r.data.Status = some "PendingLevelChange")) := by
  obtain ⟨-, -, hu⟩ := getUserInfo_eq_some h
  refine ⟨isActiveMember r.data.Status, ?_, ?_⟩
  · rw [hu, objGet_append, hov]
    rfl
  · cases hs : r.data.Status with
    | none => simp [isActiveMember]
    | some s => simp [isActiveMember]

/-- Witness for C4: `sampleProfile` has status "Active". -/
theorem getUserInfo_isActiveMember_iff_witness :
    objGet (additionalFields optsNoMap sampleResult.data) "isActiveMember" = none ∧
    getUserInfo optsNoMap ⟨some sampleProfile, none⟩ = some sampleResult ∧
    (∃ b, objGet sampleResult.user "isActiveMember" = some (JSValue.boolean b) ∧
      (b = true ↔ (sampleResult.data.Status = some "Active" ∨
        sampleResult.data.Status = some "PendingRenewal" ∨
        sampleResult.data.Status = some "PendingLevelChange"))) :=
  ⟨rfl, rfl, getUserInfo_isActiveMember_iff optsNoMap ⟨some sampleProfile, none⟩
    sampleResult rfl rfl⟩

/-- C5: every key the configured mapping function returns overrides the
corresponding default field of the normalized user, every key it does not
return keeps the adapter's default, and with no mapping function the
defaults are returned unchanged. -/
theorem getUserInfo_mapping_merge
    (opts : WildApricotOptions) (fr : FetchResult WildApricotProfile)
    (r : UserInfoResult) (h : getUserInfo opts fr = some r) :
    (∀ f, opts.mapProfileToUser = some f →
      (∀ k v, objGet (f r.data) k = some v → objGet r.user k = some v) ∧
      (∀ k, objGet (f r.data) k = none →
        objGet r.user k =
          objGet (baseUser r.data ++ defaultWildApricotFields r.data) k)) ∧
    (opts.mapProfileToUser = none →
      r.user = baseUser r.data ++ defaultWildApricotFields r.data) := by
  obtain ⟨-, -, hu⟩ := getUserInfo_eq_some h
  constructor
  · intro f hf
    have hadd : additionalFields opts r.data = f r.data := by
      unfold additionalFields
      rw [hf]
    constructor
    · intro k v hk
      rw [hu, objGet_append, hadd, hk]
    · intro k hk
      rw [hu, objGet_append, hadd, hk]
  · intro hf
    have hadd : additionalFields opts r.data = [] := by
      unfold additionalFields
      rw [hf]
    rw [hu, hadd, List.append_nil]

/-- Witness for C5: a mapping returning `isAdmin: false` wins over a
profile with `IsAccountAdministrator: true`. -/
theorem getUserInfo_mapping_merge_witness :
    getUserInfo optsAdminOverride ⟨some sampleProfile, none⟩ = some sampleAdminResult ∧
    objGet sampleAdminResult.user "isAdmin" = some (JSValue.boolean false) :=
  ⟨rfl,
    ((getUserInfo_mapping_merge optsAdminOverride ⟨some sampleProfile, none⟩
        sampleAdminResult rfl).1
      (fun _ => [("isAdmin", JSValue.boolean false)]) rfl).1
      "isAdmin" (JSValue.boolean false) rfl⟩

/-- Counterexample to C6 as stated: a present-but-empty `Status` is kept
verbatim — `??` is nullish (not falsy) coalescing — so `membershipStatus`
is `""`, not "NoMembership". -/
theorem membershipStatus_empty_string_kept :
    (getUserInfo optsNoMap ⟨some sampleProfileEmptyStatus, none⟩).map
        (fun r => objGet r.user "membershipStatus") =
      some (some (JSValue.str "")) ∧
    (getUserInfo optsNoMap ⟨some sampleProfileEmptyStatus, none⟩).map
        (fun r => objGet r.user "membershipStatus") ≠
      some (some (JSValue.str "NoMembership")) :=
  ⟨rfl, by decide⟩

/-- C6 (amended): with the keys not overridden by the mapping function,
`membershipStatus` is "NoMembership" exactly when the remote `Status` is
absent — a present `Status`, the empty string included, is kept verbatim —
and `membershipLevel` is null whenever no `MembershipLevel` object is
present. -/
theorem getUserInfo_membership_defaults
    (opts : WildApricotOptions) (fr : FetchResult WildApricotProfile)
    (r : UserInfoResult)
    (hs : objGet (additionalFields opts r.data) "membershipStatus" = none)
    (hl : objGet (additionalFields opts r.data) "membershipLevel" = none)
    (h : getUserInfo opts fr = some r) :
    (r.data.Status = none →
      objGet r.user "membershipStatus" = some (JSValue.str "NoMembership")) ∧
    (∀ s, r.data.Status = some s →
      objGet r.user "membershipStatus" = some (JSValue.str s)) ∧
    (r.data.MembershipLevel = none →
      objGet r.user "membershipLevel" = some JSValue.nullV) := by
  obtain ⟨-, -, hu⟩ := getUserInfo_eq_some h
  refine ⟨?_, ?_, ?_⟩
  · intro hst
    rw [hu, objGet_append, hs]
    show some (JSValue.str (r.data.Status.getD "NoMembership")) =
      some (JSValue.str "NoMembership")
    rw [hst]
    rfl
  · intro s hst
    rw [hu, objGet_append, hs]
    show some (JSValue.str (r.data.Status.getD "NoMembership")) =
      some (JSValue.str s)
    rw [hst]
    rfl
  · intro hlv
    rw [hu, objGet_append, hl]
    show some (match r.data.MembershipLevel with
               | some lvl => JSValue.str lvl.Name
               | none => JSValue.nullV) = some JSValue.nullV
    rw [hlv]

/-- Witness for the amended C6 at a profile with no status and no level. -/
theorem getUserInfo_membership_defaults_witness :
    getUserInfo optsNoMap ⟨some sampleProfileNoStatus, none⟩ = some sampleNoStatusResult ∧
    ((sampleNoStatusResult.data.Status = none →
      objGet sampleNoStatusResult.user "membershipStatus" =
        some (JSValue.str "NoMembership")) ∧
    (∀ s, sampleNoStatusResult.data.Status = some s →
      objGet sampleNoStatusResult.user "membershipStatus" = some (JSValue.str s)) ∧
    (sampleNoStatusResult.data.MembershipLevel = none →
      objGet sampleNoStatusResult.user "membershipLevel" = some JSValue.nullV)) :=
  ⟨rfl, getUserInfo_membership_defaults optsNoMap ⟨some sampleProfileNoStatus, none⟩
    sampleNoStatusResult rfl rfl rfl⟩

/-- C7: with the `id` key not overridden, the normalized user's `id` is
`String(profile.Id)`, the decimal representation of the remote numeric id,
and that string is never empty. -/
theorem getUserInfo_id_round_trip
    (opts : WildApricotOptions) (fr : FetchResult WildApricotProfile)
    (r : UserInfoResult)
    (hov : objGet (additionalFields opts r.data) "id" = none)
    (h : getUserInfo opts fr = some r) :
    objGet r.user "id" = some (JSValue.str (jsStringOfNumber r.data.Id)) ∧
    jsStringOfNumber r.data.Id ≠ "" := by
  obtain ⟨-, -, hu⟩ := getUserInfo_eq_some h
  refine ⟨?_, jsStringOfNumber_ne_empty r.data.Id⟩
  rw [hu, objGet_append, hov]
  rfl

/-- Witness for C7 at `sampleProfile` (`Id = 12345`). -/
theorem getUserInfo_id_round_trip_witness :
    getUserInfo optsNoMap ⟨some sampleProfile, none⟩ = some sampleResult ∧
    objGet sampleResult.user "id" =
      some (JSValue.str (jsStringOfNumber sampleResult.data.Id)) ∧
    jsStringOfNumber sampleResult.data.Id ≠ "" :=
  ⟨rfl, getUserInfo_id_round_trip optsNoMap ⟨some sampleProfile, none⟩
    sampleResult rfl rfl⟩

/-- C8: with a non-empty `siteName`, the authorization endpoint handed to
the shared helper is the tenant host `https://{siteName}.wildapricot.org`
followed by the fixed login path `/sys/login/OAuthLogin`; with `siteName`
unset it is the default public host with the same path. -/
theorem createAuthorizationURL_endpoint_host
    (opts : WildApricotOptions) (d : AuthorizationURLInput) :
    (∀ s, opts.siteName = some s → s ≠ "" →
      (createAuthorizationURL opts d).authorizationEndpoint =
        "https://" ++ s ++ ".wildapricot.org" ++ "/sys/login/OAuthLogin") ∧
    (opts.siteName = none →
      (createAuthorizationURL opts d).authorizationEndpoint =
        "https://www.wildapricot.org" ++ "/sys/login/OAuthLogin") := by
  constructor
  · intro s hs hne
    show WA_SITE_URL opts.siteName ++ "/sys/login/OAuthLogin" = _
    rw [hs]
    show (if s = "" then "https://www.wildapricot.org"
          else "https://" ++ s ++ ".wildapricot.org") ++ "/sys/login/OAuthLogin" = _
    rw [if_neg hne]
  · intro hs
    show WA_SITE_URL opts.siteName ++ "/sys/login/OAuthLogin" = _
    rw [hs]
    rfl

/-- Witness for C8 at `siteName = "club"`. -/
theorem createAuthorizationURL_endpoint_host_witness :
    optsNoMap.siteName = some "club" ∧ "club" ≠ "" ∧
    (createAuthorizationURL optsNoMap sampleAuthInput).authorizationEndpoint =
      "https://" ++ "club" ++ ".wildapricot.org" ++ "/sys/login/OAuthLogin" :=
  ⟨rfl, by decide,
    (createAuthorizationURL_endpoint_host optsNoMap sampleAuthInput).1 "club" rfl
      (by decide)⟩

/-- C9: a configured scope list — the empty list included — is passed to
the shared helper verbatim and in order; an absent one becomes the default
`["contacts_me"]`. -/
theorem createAuthorizationURL_scopes_passthrough
    (opts : WildApricotOptions) (d : AuthorizationURLInput) :
    (∀ l, opts.scopes = some l → (createAuthorizationURL opts d).scopes = l) ∧
    (opts.scopes = none →
      (createAuthorizationURL opts d).scopes = ["contacts_me"]) := by
  constructor
  · intro l hl
    show opts.scopes.getD ["contacts_me"] = l
    rw [hl]
    rfl
  · intro hl
    show opts.scopes.getD ["contacts_me"] = ["contacts_me"]
    rw [hl]
    rfl

/-- Witness for C9 at the explicitly empty scope list of `optsNoMap`. -/
theorem createAuthorizationURL_scopes_passthrough_witness :
    optsNoMap.scopes = some [] ∧
    (createAuthorizationURL optsNoMap sampleAuthInput).scopes = [] :=
  ⟨rfl,
    (createAuthorizationURL_scopes_passthrough optsNoMap sampleAuthInput).1 [] rfl⟩

/-- C10: the mapping function's overrides are not limited to the four
derived membership fields — any key it returns, the base fields `id`,
`name`, `email`, `emailVerified` and `image` included, replaces the
default — and `emailVerified` is true / `image` is null exactly when the
mapping does not return those keys. -/
theorem getUserInfo_mapping_overrides_base_fields
    (opts : WildApricotOptions) (fr : FetchResult WildApricotProfile)
    (r : UserInfoResult) (f : WildApricotProfile → JSObject)
    (hf : opts.mapProfileToUser = some f)
    (h : getUserInfo opts fr = some r) :
    (∀ k v, objGet (f r.data) k = some v → objGet r.user k = some v) ∧
    (objGet (f r.data) "emailVerified" = none →
      objGet r.user "emailVerified" = some (JSValue.boolean true)) ∧
    (objGet (f r.data) "image" = none →
      objGet r.user "image" = some JSValue.nullV) := by
  obtain ⟨-, -, hu⟩ := getUserInfo_eq_some h
  have hadd : additionalFields opts r.data = f r.data := by
    unfold additionalFields
    rw [hf]
  refine ⟨?_, ?_, ?_⟩
  · intro k v hk
    rw [hu, objGet_append, hadd, hk]
  · intro hk
    rw [hu, objGet_append, hadd, hk]
    rfl
  · intro hk
    rw [hu, objGet_append, hadd, hk]
    rfl

/-- Witness for C10: a mapping returning an `id` key replaces the base
`id` field. -/
theorem getUserInfo_mapping_overrides_base_fields_witness :
    optsIdOverride.mapProfileToUser = some (fun _ => [("id", JSValue.num 99)]) ∧
    getUserInfo optsIdOverride ⟨some sampleProfile, none⟩ = some sampleIdOverrideResult ∧
    objGet sampleIdOverrideResult.user "id" = some (JSValue.num 99) :=
  ⟨rfl, rfl,
    (getUserInfo_mapping_overrides_base_fields optsIdOverride
        ⟨some sampleProfile, none⟩ sampleIdOverrideResult
        (fun _ => [("id", JSValue.num 99)]) rfl rfl).1
      "id" (JSValue.num 99) rfl⟩
